import Mathlib

/-!
# Verification of the pysmartthings request engine (`src/pysmartthings/api.py`)

Shallow embedding of the authenticated, paginated HTTP request engine:

* the asynchronous engine `Api` (the class `Api` in `api.py`): the per-request
  classification in `Api.request` (lines 78-99), the pagination loop
  `Api.get_items` (lines 105-114) and the link extraction `Api._get_next_link`
  (lines 116-124);
* the synchronous engine `api_old`: its `_request` classification
  (lines 369-384).

Python dictionaries holding the decoded JSON page shape
`{ items: [...], _links: { next: { href } } }` are embedded as structures with
`Option` fields; the `get` method of a dict becomes field access on the
`Option`.  The Python falsiness test `if not links` on `_links` / `next`
(`None` or the empty dict) is observationally the same as the `Option`
match, because `get` on an empty dict yields `None`.  The HTTP transport (aiohttp / requests) is abstracted as a function
from the sent request to a response; `resp.request_info` is, as in aiohttp,
the method, url and headers of the request as sent.  Exceptions become
`Except`.
The `while next_link:` loop of `get_items` is embedded with explicit fuel
(the number of requests the loop is still allowed to issue); `none` as the
result payload marks fuel exhaustion, which corresponds to a run of the
Python loop longer than the fuel.
-/

set_option autoImplicit false

namespace PySmartThings

variable {I P E J : Type}

/-- The `next` object under the `_links` member of a page: a dict that may
carry an `href` string (read by `get`). -/
structure NextObj where
  href : Option String
  deriving DecidableEq, Repr

/-- The `_links` object of a page: a dict that may carry a `next` object
(read by `get`). -/
structure LinksObj where
  next : Option NextObj
  deriving DecidableEq, Repr

/-- A decoded JSON page `{ items: [...], _links: {...} }`, with both keys
optional (read by `get` with a default).  `I` is the opaque
item type; the engine never looks inside an item. -/
structure PageData (I : Type) where
  items : Option (List I)
  links : Option LinksObj
  deriving DecidableEq, Repr

/-- `Api._get_next_link` (api.py lines 116-124): `get` of `_links`, then of
`next`, then of `href`; any missing level gives `None`. -/
def get_next_link (data : PageData I) : Option String :=
  match data.links with
  | none => none
  | some links =>
    match links.next with
    | none => none
    | some nl => nl.href

/-- Python truthiness of the value bound by `while next_link:` in
`Api.get_items`: `None` and the empty string are falsy, any other string is
truthy. -/
def linkTruthy : Option String → Option String
  | none => none
  | some s => if s = "" then none else some s

/-- Items contributed by one page: `get` of `items` with default `[]`. -/
def pageItems (p : PageData I) : List I :=
  p.items.getD []

/-- Concatenation of the items of a list of pages, in page order. -/
def pagesItems (ps : List (PageData I)) : List I :=
  ps.foldr (fun p acc => pageItems p ++ acc) []

/-- The loop of `Api.get_items` (api.py lines 107-114), with the single
request abstracted as `fetch : url → params → page-or-error` (it stands for
`await self.request` with method get; note that the source passes
`params` again on every iteration, line 111).  The result pairs the list of
requests issued — `(url, params)` per request, the method being always
always get — with the outcome: `some (ok items)` when the loop finishes,
`some (error e)` when a request fails (the exception propagates), `none`
when the fuel runs out before the loop does. -/
def get_items_go (fetch : String → Option P → Except E (PageData I))
    (params : Option P) :
    Nat → List I → String → List (String × Option P) × Option (Except E (List I))
  | 0, _, _ => ([], none)
  | fuel + 1, acc, url =>
    match fetch url params with
    | Except.error e => ([(url, params)], some (Except.error e))
    | Except.ok page =>
      let acc2 := acc ++ pageItems page
      match linkTruthy (get_next_link page) with
      | none => ([(url, params)], some (Except.ok acc2))
      | some nl =>
        let rest := get_items_go fetch params fuel acc2 nl
        ((url, params) :: rest.1, rest.2)

/-- `Api.get_items` (api.py lines 105-114): first request to
`self._api_base + resource` with `params`, then the pagination loop.  As in
`get_items_go`, the first component is the trace of requests issued. -/
def get_items (fetch : String → Option P → Except E (PageData I))
    (api_base resource : String) (params : Option P) (fuel : Nat) :
    List (String × Option P) × Option (Except E (List I)) :=
  get_items_go fetch params fuel [] (api_base ++ resource)

/-- The pages served form a terminating next-link chain from `url`:
each page is returned by `fetch` at its url, every page but the last carries
a truthy next link naming the next url, and the last page carries none. -/
inductive Chain (fetch : String → Option P → Except E (PageData I))
    (params : Option P) : String → List (PageData I) → Prop
  | last {url : String} {p : PageData I} :
      fetch url params = Except.ok p →
      linkTruthy (get_next_link p) = none →
      Chain fetch params url [p]
  | more {url nl : String} {p : PageData I} {ps : List (PageData I)} :
      fetch url params = Except.ok p →
      linkTruthy (get_next_link p) = some nl →
      Chain fetch params nl ps →
      Chain fetch params url (p :: ps)

/-- The pages `ps` are served successfully from `url` and then the request
for the following next link fails with `e`. -/
inductive FailChain (fetch : String → Option P → Except E (PageData I))
    (params : Option P) (e : E) : String → List (PageData I) → Prop
  | here {url : String} :
      fetch url params = Except.error e →
      FailChain fetch params e url []
  | step {url nl : String} {p : PageData I} {ps : List (PageData I)} :
      fetch url params = Except.ok p →
      linkTruthy (get_next_link p) = some nl →
      FailChain fetch params e nl ps →
      FailChain fetch params e url (p :: ps)

/-- A request as sent on the wire by `self._session.request(method, url,
params=params, json=data, headers={"Authorization": "Bearer " + self._token})`
(api.py lines 81-83). -/
structure SentRequest (P J : Type) where
  method : String
  url : String
  params : Option P
  data : Option J
  headers : List (String × String)
  deriving DecidableEq, Repr

/-- What the transport answers with: HTTP status, reason phrase, and the
JSON decode of the body (`some j` when the body is valid JSON read as a value
of `J`, `none` when `resp.json()` would raise). -/
structure ServerResponse (J : Type) where
  status : Nat
  reason : String
  jsonBody : Option J
  deriving DecidableEq, Repr

/-- The aiohttp `resp.request_info`: the method, url and headers of the request
as it was sent (the headers as sent, Authorization included). -/
structure RequestInfo where
  method : String
  url : String
  headers : List (String × String)
  deriving DecidableEq, Repr

/-- The exceptions `Api.request` can raise (api.py lines 84-99):
`APIResponseError` for 400/422/429/500 (carrying `resp.request_info`, the
status, the reason phrase as `message`, and the best-effort JSON decode of
the body as `data`), the generic `aiohttp.ClientResponseError` from
`resp.raise_for_status()` for any other status ≥ 400, and the decode error
`resp.json()` raises on a 200 response whose body is not valid JSON. -/
inductive ReqError (J : Type) where
  | apiResponseError (request_info : RequestInfo) (status : Nat)
      (message : String) (data : Option J)
  | clientResponseError (status : Nat)
  | jsonDecodeError
  deriving DecidableEq, Repr

/-- The `Api` client state: the mutable `_token` attribute (api.py line 39,
setter lines 73-76).  The session and base url play no role in the claims
about the token. -/
structure Api where
  token : String
  deriving DecidableEq, Repr

/-- The token setter `Api.token` (api.py lines 73-76). -/
def Api.set_token (a : Api) (t : String) : Api :=
  { a with token := t }

/-- The request `Api.request` builds and hands to `self._session.request`
(api.py lines 81-83): the Authorization header is assembled from
`self._token` at call time. -/
def Api.sent (a : Api) (method url : String) (params : Option P)
    (data : Option J) : SentRequest P J :=
  { method := method, url := url, params := params, data := data,
    headers := [("Authorization", "Bearer " ++ a.token)] }

/-- `Api.request` (api.py lines 78-99) against a transport `server`:
build the request with the Bearer header, send it, then dispatch on the
response status.  200 returns the decoded JSON body (the decode failure of
`resp.json()` propagates); 400/422/429/500 raise `APIResponseError` whose
`data` is the best-effort decode of the body (`None` when decoding fails —
the `try`/`except` swallows that failure); any other status ≥ 400 raises
through `resp.raise_for_status()`; any remaining status returns `None`. -/
def Api.request (a : Api) (method url : String) (params : Option P)
    (data : Option J) (server : SentRequest P J → ServerResponse J) :
    Except (ReqError J) (Option J) :=
  let s : SentRequest P J := Api.sent a method url params data
  let resp := server s
  let ri : RequestInfo :=
    { method := s.method, url := s.url, headers := s.headers }
  if resp.status = 200 then
    match resp.jsonBody with
    | some j => Except.ok (some j)
    | none => Except.error ReqError.jsonDecodeError
  else if resp.status = 400 ∨ resp.status = 422 ∨ resp.status = 429 ∨
      resp.status = 500 then
    Except.error (ReqError.apiResponseError ri resp.status resp.reason
      resp.jsonBody)
  else if 400 ≤ resp.status then
    Except.error (ReqError.clientResponseError resp.status)
  else
    Except.ok none

/-- A client-visible operation on one `Api` client: assign the `token`
property, or call `request`. -/
inductive ApiOp (P J : Type) where
  | set_token (t : String)
  | do_request (method url : String) (params : Option P) (data : Option J)

/-- Run a list of operations on a client, collecting the request each
`do_request` sends on the wire (headers included), in order. -/
def Api.runOps (a : Api) : List (ApiOp P J) → List (SentRequest P J)
  | [] => []
  | ApiOp.set_token t :: ops => Api.runOps (Api.set_token a t) ops
  | ApiOp.do_request m u p d :: ops =>
    Api.sent a m u p d :: Api.runOps a ops

/-- A response as the synchronous `requests` library presents it:
`status_code`, and the JSON decode of the body (`none` when
`response.json()` would raise). -/
structure SyncResp (J : Type) where
  status_code : Nat
  jsonBody : Option J
  deriving DecidableEq, Repr

/-- `response.ok` of the `requests` library: status below 400. -/
def SyncResp.ok (r : SyncResp J) : Bool :=
  decide (r.status_code < 400)

/-- The exceptions of the synchronous engine (`errors` module as used in
api.py lines 378-384), plus the decode error `response.json()` raises. -/
inductive OldError where
  | apiUnauthorizedError
  | apiForbiddenError
  | apiUnknownError
  | jsonDecodeError
  deriving DecidableEq, Repr

namespace api_old

/-- `api_old._request` (api.py lines 369-384), response handling: `ok`
responses return `response.json()`, 401 raises `APIUnauthorizedError`,
403 raises `APIForbiddenError`, everything else raises
`APIUnknownError`. -/
def _request (resp : SyncResp J) : Except OldError J :=
  if resp.ok then
    match resp.jsonBody with
    | some j => Except.ok j
    | none => Except.error OldError.jsonDecodeError
  else if resp.status_code = 401 then
    Except.error OldError.apiUnauthorizedError
  else if resp.status_code = 403 then
    Except.error OldError.apiForbiddenError
  else
    Except.error OldError.apiUnknownError

end api_old

/-- The error taxonomy of the spec (spec.md section 7). -/
inductive ErrKind where
  | unauthorized
  | forbidden
  | requestRejected
  | unknown
  | decodeFailure
  deriving DecidableEq, Repr

/-- Modelled from the spec: the taxonomy kind each exception class of the
asynchronous engine falls under (`APIResponseError`, raised exactly for
400/422/429/500, is the `RequestRejected` of the spec; the status-only
`ClientResponseError` from `raise_for_status` is the catch-all `Unknown`;
a failed decode of a 200 body is `DecodeFailure`). -/
def ReqError.kind : ReqError J → ErrKind
  | ReqError.apiResponseError _ _ _ _ => ErrKind.requestRejected
  | ReqError.clientResponseError _ => ErrKind.unknown
  | ReqError.jsonDecodeError => ErrKind.decodeFailure

/-- Modelled from the spec: the taxonomy kind each exception class of the
synchronous engine falls under. -/
def OldError.kind : OldError → ErrKind
  | OldError.apiUnauthorizedError => ErrKind.unauthorized
  | OldError.apiForbiddenError => ErrKind.forbidden
  | OldError.apiUnknownError => ErrKind.unknown
  | OldError.jsonDecodeError => ErrKind.decodeFailure

/-! ## Concrete fixtures used by witnesses and counterexamples -/

/-- A first page: items `[1, 2]` and a next link to `"u2"`. -/
def pageOne : PageData Nat :=
  { items := some [1, 2],
    links := some { next := some { href := some "u2" } } }

/-- A last page: items `[3]` and no `_links`. -/
def pageLast : PageData Nat :=
  { items := some [3], links := none }

/-- A page with no `items` field and a next link to `"u2"`. -/
def pageNoItems : PageData Nat :=
  { items := none,
    links := some { next := some { href := some "u2" } } }

/-- A page whose next-link object is present but carries no `href`. -/
def pageNoHref : PageData Nat :=
  { items := some [5],
    links := some { next := some { href := none } } }

/-- A two-page server: `"b/r"` serves `pageOne`, `"u2"` serves `pageLast`,
anything else errors. -/
def fetchTwoPages : String → Option Nat → Except Unit (PageData Nat) :=
  fun url _ =>
    if url = "b/r" then Except.ok pageOne
    else if url = "u2" then Except.ok pageLast
    else Except.error ()

/-- A server whose second page request fails with error code `7`. -/
def fetchFailsSecond : String → Option Nat → Except Nat (PageData Nat) :=
  fun url _ =>
    if url = "b/r" then Except.ok pageOne
    else Except.error 7

/-- A server whose first page has no `items`: `"b/r"` serves `pageNoItems`,
`"u2"` serves `pageLast`. -/
def fetchNoItemsFirst : String → Option Nat → Except Unit (PageData Nat) :=
  fun url _ =>
    if url = "b/r" then Except.ok pageNoItems
    else if url = "u2" then Except.ok pageLast
    else Except.error ()

/-- A one-page server serving the page whose next link lacks `href`. -/
def fetchNoHref : String → Option Nat → Except Unit (PageData Nat) :=
  fun url _ =>
    if url = "b/r" then Except.ok pageNoHref
    else Except.error ()

/-- The two-page server again, typed for string-pair query params, to
observe which params each request carries. -/
def fetchTwoPagesP : String → Option (List (String × String)) →
    Except Unit (PageData Nat) :=
  fun url _ =>
    if url = "b/r" then Except.ok pageOne
    else if url = "u2" then Except.ok pageLast
    else Except.error ()

/-- A transport answering 429 with a body that is not valid JSON. -/
def srv429 : SentRequest Nat Nat → ServerResponse Nat :=
  fun _ => { status := 429, reason := "Too Many Requests", jsonBody := none }

/-- A transport answering 401. -/
def srv401 : SentRequest Nat Nat → ServerResponse Nat :=
  fun _ => { status := 401, reason := "Unauthorized", jsonBody := none }

/-- A transport answering 403. -/
def srv403 : SentRequest Nat Nat → ServerResponse Nat :=
  fun _ => { status := 403, reason := "Forbidden", jsonBody := none }

/-- A transport answering 204 with no JSON body. -/
def srv204 : SentRequest Nat Nat → ServerResponse Nat :=
  fun _ => { status := 204, reason := "No Content", jsonBody := none }

/-- A transport answering 400 with a body that is not valid JSON. -/
def srv400 : SentRequest Nat Nat → ServerResponse Nat :=
  fun _ => { status := 400, reason := "Bad Request", jsonBody := none }

/-! ## Claim theorems -/

theorem get_items_go_chain (fetch : String → Option P → Except E (PageData I))
    (params : Option P) {url : String} {ps : List (PageData I)}
    (h : Chain fetch params url ps) :
    ∀ (fuel : Nat) (acc : List I), ps.length ≤ fuel →
      (get_items_go fetch params fuel acc url).2
        = some (Except.ok (acc ++ pagesItems ps)) := by
  induction h with
  | last hf hl =>
    intro fuel acc hfuel
    match fuel with
    | fuel + 1 =>
      simp [get_items_go, hf, hl, pagesItems, pageItems]
  | more hf hl _ ih =>
    intro fuel acc hfuel
    match fuel with
    | fuel + 1 =>
      have hlen : _ ≤ fuel := Nat.le_of_succ_le_succ (by simpa using hfuel)
      simp only [get_items_go, hf, hl]
      rw [ih fuel _ hlen]
      simp [pagesItems, pageItems, List.append_assoc]

theorem get_items_go_failchain (fetch : String → Option P → Except E (PageData I))
    (params : Option P) {e : E} {url : String} {ps : List (PageData I)}
    (h : FailChain fetch params e url ps) :
    ∀ (fuel : Nat) (acc : List I), ps.length < fuel →
      (get_items_go fetch params fuel acc url).2 = some (Except.error e) := by
  induction h with
  | here hf =>
    intro fuel acc hfuel
    match fuel with
    | fuel + 1 => simp [get_items_go, hf]
  | step hf hl _ ih =>
    intro fuel acc hfuel
    match fuel with
    | fuel + 1 =>
      have hlen : _ < fuel := Nat.lt_of_succ_lt_succ (by simpa using hfuel)
      simp only [get_items_go, hf, hl]
      exact ih fuel _ hlen

/-- Claim C1: for every terminating next-link chain of pages P1..Pn served
from the initial url (each page but the last with a truthy next link, the
last with none), `get_items` returns exactly the concatenation of the items
of P1 through Pn in page order, dropping and duplicating nothing. -/
theorem C1_get_items_concatenates_pages {I P E : Type}
    (fetch : String → Option P → Except E (PageData I))
    (api_base resource : String) (params : Option P)
    {ps : List (PageData I)} (fuel : Nat)
    (h : Chain fetch params (api_base ++ resource) ps)
    (hfuel : ps.length ≤ fuel) :
    (get_items fetch api_base resource params fuel).2
      = some (Except.ok (pagesItems ps)) := by
  simpa [get_items] using get_items_go_chain fetch params h fuel [] hfuel

/-- Witness for C1 on the concrete two-page server. -/
theorem C1_witness :
    (get_items fetchTwoPages "b/" "r" (none : Option Nat) 2).2
      = some (Except.ok [1, 2, 3]) := by
  have hch : Chain fetchTwoPages none ("b/" ++ "r") [pageOne, pageLast] :=
    Chain.more
      (show fetchTwoPages ("b/" ++ "r") none = Except.ok pageOne from rfl)
      (show linkTruthy (get_next_link pageOne) = some "u2" from rfl)
      (Chain.last
        (show fetchTwoPages "u2" none = Except.ok pageLast from rfl)
        (show linkTruthy (get_next_link pageLast) = none from rfl))
  have h := C1_get_items_concatenates_pages fetchTwoPages "b/" "r" none 2 hch
    (by decide)
  simpa [pagesItems, pageItems, pageOne, pageLast] using h

/-- Claim C2: if the request for page k fails with error `e` after pages
1..k-1 were served, `get_items` returns exactly `e`, unchanged, and none of
the already accumulated items appear in the result (the outcome is
`Except.error e`, which carries no items). -/
theorem C2_error_aborts_fetch {I P E : Type}
    (fetch : String → Option P → Except E (PageData I))
    (api_base resource : String) (params : Option P) {e : E}
    {ps : List (PageData I)} (fuel : Nat)
    (h : FailChain fetch params e (api_base ++ resource) ps)
    (hfuel : ps.length < fuel) :
    (get_items fetch api_base resource params fuel).2
      = some (Except.error e) := by
  simpa [get_items] using get_items_go_failchain fetch params h fuel [] hfuel

/-- Witness for C2: the second page request fails with error `7` and the
fetch returns exactly that error, without the items of the first page. -/
theorem C2_witness :
    (get_items fetchFailsSecond "b/" "r" (none : Option Nat) 2).2
      = some (Except.error 7) := by
  have hch : FailChain fetchFailsSecond none 7 ("b/" ++ "r") [pageOne] :=
    FailChain.step
      (show fetchFailsSecond ("b/" ++ "r") none = Except.ok pageOne from rfl)
      (show linkTruthy (get_next_link pageOne) = some "u2" from rfl)
      (FailChain.here
        (show fetchFailsSecond "u2" none = Except.error 7 from rfl))
  exact C2_error_aborts_fetch fetchFailsSecond "b/" "r" none 2 hch (by decide)

/-- Claim C3: on a response with status 400, 422, 429 or 500, `Api.request`
fails with `APIResponseError` — the `RequestRejected` kind of the spec — whose
diagnostic `data` is the JSON decode of the body when the body is valid JSON
and absent (`none`) when it is not; the decode failure itself never
propagates (the conclusion holds for every `jsonBody`, `none` included, and
the outcome is this error, never `jsonDecodeError`). -/
theorem C3_request_rejected {P J : Type} (a : Api) (m u : String)
    (p : Option P) (d : Option J)
    (server : SentRequest P J → ServerResponse J)
    (h : (server (Api.sent a m u p d)).status = 400 ∨
      (server (Api.sent a m u p d)).status = 422 ∨
      (server (Api.sent a m u p d)).status = 429 ∨
      (server (Api.sent a m u p d)).status = 500) :
    Api.request a m u p d server
      = Except.error (ReqError.apiResponseError
          { method := m, url := u,
            headers := [("Authorization", "Bearer " ++ a.token)] }
          (server (Api.sent a m u p d)).status
          (server (Api.sent a m u p d)).reason
          (server (Api.sent a m u p d)).jsonBody)
    ∧ ∀ ri st msg dt,
        Api.request a m u p d server
          = Except.error (ReqError.apiResponseError ri st msg dt) →
        ReqError.kind (ReqError.apiResponseError ri st msg dt)
          = ErrKind.requestRejected := by
  have h200 : (server (Api.sent a m u p d)).status ≠ 200 := by omega
  refine ⟨?_, fun ri st msg dt _ => rfl⟩
  simp only [Api.request]
  rw [if_neg h200, if_pos h]
  rfl

/-- Witness for C3 on a concrete 429 response with an undecodable body. -/
theorem C3_witness :
    Api.request { token := "tok" } "get" "u" (none : Option Nat)
        (none : Option Nat) srv429
      = Except.error (ReqError.apiResponseError
          { method := "get", url := "u",
            headers := [("Authorization", "Bearer " ++ "tok")] }
          429 "Too Many Requests" none) :=
  (C3_request_rejected { token := "tok" } "get" "u" none none srv429
    (Or.inr (Or.inr (Or.inl rfl)))).1

/-- Counterexample to claim C4: in the asynchronous engine `Api.request`,
a 401 response does not fail with an `Unauthorized`-kind error and a 403
response does not fail with a `Forbidden`-kind error; both fall through to
`resp.raise_for_status()`, which raises the generic status-only
`ClientResponseError` — the catch-all `Unknown` kind of the taxonomy —
so the claimed classification does not hold for every request issued
through the engine. -/
theorem C4_counterexample :
    Api.request { token := "t" } "get" "u" (none : Option Nat)
        (none : Option Nat) srv401
      = Except.error (ReqError.clientResponseError 401)
    ∧ Api.request { token := "t" } "get" "u" (none : Option Nat)
        (none : Option Nat) srv403
      = Except.error (ReqError.clientResponseError 403)
    ∧ ReqError.kind (ReqError.clientResponseError (J := Nat) 401)
      ≠ ErrKind.unauthorized
    ∧ ReqError.kind (ReqError.clientResponseError (J := Nat) 403)
      ≠ ErrKind.forbidden := by
  refine ⟨rfl, rfl, ?_, ?_⟩ <;> simp [ReqError.kind]

/-- Claim C4 as amended: the 401 → `Unauthorized`, 403 → `Forbidden`
classification holds in the synchronous engine (`api_old._request`); the
asynchronous engine instead maps both statuses to the generic status-only
`ClientResponseError` (taxonomy kind `Unknown`). -/
theorem C4_amended {P J : Type} (resp : SyncResp J) (a : Api) (m u : String)
    (p : Option P) (d : Option J)
    (server : SentRequest P J → ServerResponse J) :
    (resp.status_code = 401 →
      api_old._request resp = Except.error OldError.apiUnauthorizedError ∧
      OldError.kind OldError.apiUnauthorizedError = ErrKind.unauthorized)
    ∧ (resp.status_code = 403 →
      api_old._request resp = Except.error OldError.apiForbiddenError ∧
      OldError.kind OldError.apiForbiddenError = ErrKind.forbidden)
    ∧ ((server (Api.sent a m u p d)).status = 401 →
      Api.request a m u p d server
        = Except.error (ReqError.clientResponseError 401))
    ∧ ((server (Api.sent a m u p d)).status = 403 →
      Api.request a m u p d server
        = Except.error (ReqError.clientResponseError 403)) := by
  refine ⟨fun h => ⟨?_, rfl⟩, fun h => ⟨?_, rfl⟩, fun h => ?_, fun h => ?_⟩
  · simp [api_old._request, SyncResp.ok, h]
  · simp [api_old._request, SyncResp.ok, h]
  · have h200 : (server (Api.sent a m u p d)).status ≠ 200 := by omega
    have hrej : ¬ ((server (Api.sent a m u p d)).status = 400 ∨
        (server (Api.sent a m u p d)).status = 422 ∨
        (server (Api.sent a m u p d)).status = 429 ∨
        (server (Api.sent a m u p d)).status = 500) := by omega
    have hge : 400 ≤ (server (Api.sent a m u p d)).status := by omega
    simp only [Api.request]
    rw [if_neg h200, if_neg hrej, if_pos hge, h]
  · have h200 : (server (Api.sent a m u p d)).status ≠ 200 := by omega
    have hrej : ¬ ((server (Api.sent a m u p d)).status = 400 ∨
        (server (Api.sent a m u p d)).status = 422 ∨
        (server (Api.sent a m u p d)).status = 429 ∨
        (server (Api.sent a m u p d)).status = 500) := by omega
    have hge : 400 ≤ (server (Api.sent a m u p d)).status := by omega
    simp only [Api.request]
    rw [if_neg h200, if_neg hrej, if_pos hge, h]

/-- Witness for C4 as amended, at a concrete 401 and a concrete 403. -/
theorem C4_amended_witness :
    (api_old._request { status_code := 401, jsonBody := (none : Option Nat) }
      = Except.error OldError.apiUnauthorizedError)
    ∧ (api_old._request { status_code := 403, jsonBody := (none : Option Nat) }
      = Except.error OldError.apiForbiddenError)
    ∧ Api.request { token := "t" } "get" "u" (none : Option Nat)
        (none : Option Nat) srv401
      = Except.error (ReqError.clientResponseError 401) :=
  ⟨((C4_amended { status_code := 401, jsonBody := (none : Option Nat) }
      { token := "t" } "get" "u" (none : Option Nat) (none : Option Nat)
      srv401).1 rfl).1,
   ((C4_amended { status_code := 403, jsonBody := (none : Option Nat) }
      { token := "t" } "get" "u" (none : Option Nat) (none : Option Nat)
      srv403).2.1 rfl).1,
   (C4_amended { status_code := 401, jsonBody := (none : Option Nat) }
      { token := "t" } "get" "u" (none : Option Nat) (none : Option Nat)
      srv401).2.2.1 rfl⟩

/-- Claim C10: a response whose status is 2xx but not 200 raises nothing and
returns no payload: `Api.request` yields `Except.ok none` (only 200 is
decoded as JSON, and `raise_for_status` raises only for status ≥ 400). -/
theorem C10_2xx_non_200_returns_none {P J : Type} (a : Api) (m u : String)
    (p : Option P) (d : Option J)
    (server : SentRequest P J → ServerResponse J)
    (h1 : 200 ≤ (server (Api.sent a m u p d)).status)
    (h2 : (server (Api.sent a m u p d)).status ≤ 299)
    (h3 : (server (Api.sent a m u p d)).status ≠ 200) :
    Api.request a m u p d server = Except.ok (none : Option J) := by
  have hrej : ¬ ((server (Api.sent a m u p d)).status = 400 ∨
      (server (Api.sent a m u p d)).status = 422 ∨
      (server (Api.sent a m u p d)).status = 429 ∨
      (server (Api.sent a m u p d)).status = 500) := by omega
  have hraise : ¬ 400 ≤ (server (Api.sent a m u p d)).status := by omega
  simp only [Api.request]
  rw [if_neg h3, if_neg hrej, if_neg hraise]

/-- Witness for C10 at a concrete 204 response. -/
theorem C10_witness :
    Api.request { token := "t" } "get" "u" (none : Option Nat)
        (none : Option Nat) srv204 = Except.ok (none : Option Nat) :=
  C10_2xx_non_200_returns_none { token := "t" } "get" "u" none none srv204
    (by decide) (by decide) (by decide)

theorem get_items_go_params {I P E : Type}
    (fetch : String → Option P → Except E (PageData I)) (params : Option P) :
    ∀ (fuel : Nat) (acc : List I) (url : String),
      ((get_items_go fetch params fuel acc url).1).map Prod.snd
        = List.replicate ((get_items_go fetch params fuel acc url).1).length
            params := by
  intro fuel
  induction fuel with
  | zero => intro acc url; simp [get_items_go]
  | succ n ih =>
    intro acc url
    cases hf : fetch url params with
    | error e => simp [get_items_go, hf]
    | ok page =>
      cases hl : linkTruthy (get_next_link page) with
      | none => simp [get_items_go, hf, hl]
      | some nl => simp [get_items_go, hf, hl, ih, List.replicate_succ]

/-- Counterexample to claim C5: in a concrete two-page fetch carrying query
params, the follow-up request to the next-link URL is not free of the
original params — line 111 of api.py passes `params` again — so it is false
that every request after the first carries no params. -/
theorem C5_counterexample :
    ¬ (∀ r ∈ ((get_items fetchTwoPagesP "b/" "r"
        (some [("capability", "switch")]) 5).1.drop 1),
        r.2 = (none : Option (List (String × String)))) := by
  decide

/-- Claim C5 as amended: every request `get_items` issues — the first and
every follow-up to a next-link URL alike — re-sends the original `params`
argument (the trace of params sent is `params` repeated once per
request). -/
theorem C5_amended_params_resent {I P E : Type}
    (fetch : String → Option P → Except E (PageData I))
    (api_base resource : String) (params : Option P) (fuel : Nat) :
    ((get_items fetch api_base resource params fuel).1).map Prod.snd
      = List.replicate
          ((get_items fetch api_base resource params fuel).1).length params :=
  get_items_go_params fetch params fuel [] (api_base ++ resource)

/-- Claim C6: a page response lacking the `items` field contributes zero
items and does not make the fetch fail; when it carries a valid next link
the fetch continues along the chain, returning the items of the remaining
pages. -/
theorem C6_missing_items_page {I P E : Type}
    (fetch : String → Option P → Except E (PageData I))
    (api_base resource : String) (params : Option P) {p : PageData I}
    {nl : String} {ps : List (PageData I)} (fuel : Nat)
    (hf : fetch (api_base ++ resource) params = Except.ok p)
    (hitems : p.items = none)
    (hl : linkTruthy (get_next_link p) = some nl)
    (hch : Chain fetch params nl ps)
    (hfuel : ps.length < fuel) :
    (get_items fetch api_base resource params fuel).2
      = some (Except.ok (pagesItems ps)) := by
  obtain ⟨f, rfl⟩ : ∃ f, fuel = f + 1 := ⟨fuel - 1, by omega⟩
  have hrest := get_items_go_chain fetch params hch f ([] ++ pageItems p)
    (by omega)
  simp only [get_items, get_items_go, hf, hl]
  rw [hrest]
  simp [pageItems, hitems]

/-- Witness for C6: the first page has no `items` and a next link; the fetch
returns the items of the last page without failing. -/
theorem C6_witness :
    (get_items fetchNoItemsFirst "b/" "r" (none : Option Nat) 2).2
      = some (Except.ok [3]) := by
  have hch : Chain fetchNoItemsFirst none "u2" [pageLast] :=
    Chain.last
      (show fetchNoItemsFirst "u2" none = Except.ok pageLast from rfl)
      (show linkTruthy (get_next_link pageLast) = none from rfl)
  have h := C6_missing_items_page fetchNoItemsFirst "b/" "r" none 2
    (show fetchNoItemsFirst ("b/" ++ "r") none = Except.ok pageNoItems from rfl)
    (show pageNoItems.items = none from rfl)
    (show linkTruthy (get_next_link pageNoItems) = some "u2" from rfl)
    hch (by decide)
  simpa [pagesItems, pageItems, pageLast] using h

/-- Claim C7: next-link extraction returns the string at
`page._links.next.href` when all three levels are present; a missing
`_links`, a missing `next`, or a missing `href` each yield no next link
rather than an error; and a next-link object lacking `href` makes the
pagination loop stop after that page exactly as if there were no next
link. -/
theorem C7_next_link_extraction {I P E : Type} (p : PageData I) :
    (∀ l n s, p.links = some l → l.next = some n → n.href = some s →
      get_next_link p = some s)
    ∧ (p.links = none → get_next_link p = none)
    ∧ (∀ l, p.links = some l → l.next = none → get_next_link p = none)
    ∧ (∀ l n, p.links = some l → l.next = some n → n.href = none →
      get_next_link p = none)
    ∧ (∀ (fetch : String → Option P → Except E (PageData I))
        (params : Option P) (url : String) (acc : List I) (fuel : Nat) l n,
        p.links = some l → l.next = some n → n.href = none →
        fetch url params = Except.ok p →
        get_items_go fetch params (fuel + 1) acc url
          = ([(url, params)], some (Except.ok (acc ++ pageItems p)))) := by
  refine ⟨?_, ?_, ?_, ?_, ?_⟩
  · intro l n s hl hn hh
    simp [get_next_link, hl, hn, hh]
  · intro hl
    simp [get_next_link, hl]
  · intro l hl hn
    simp [get_next_link, hl, hn]
  · intro l n hl hn hh
    simp [get_next_link, hl, hn, hh]
  · intro fetch params url acc fuel l n hl hn hh hf
    have hnone : linkTruthy (get_next_link p) = none := by
      simp [linkTruthy, get_next_link, hl, hn, hh]
    simp [get_items_go, hf, hnone]

/-- Witness for C7 on the page whose next-link object lacks `href`. -/
theorem C7_witness :
    get_next_link pageNoHref = (none : Option String)
    ∧ get_items_go fetchNoHref (none : Option Nat) 3 [] "b/r"
      = ([("b/r", (none : Option Nat))], some (Except.ok [5])) :=
  ⟨(C7_next_link_extraction (I := Nat) (P := Nat) (E := Unit)
      pageNoHref).2.2.2.1
    { next := some { href := none } } { href := none } rfl rfl rfl,
   (C7_next_link_extraction pageNoHref).2.2.2.2 fetchNoHref none "b/r" [] 2
    { next := some { href := none } } { href := none } rfl rfl rfl rfl⟩

/-- Claim C8: the Authorization header is assembled from the current token
of the client at the moment each request is built, so replacing the token
between two sequential requests makes the second request carry the new
token while the first carried the old one. -/
theorem C8_token_rotation {P J : Type} (a : Api) (t2 : String)
    (m1 u1 m2 u2 : String) (p1 p2 : Option P) (d1 d2 : Option J) :
    (Api.runOps a [ApiOp.do_request m1 u1 p1 d1, ApiOp.set_token t2,
        ApiOp.do_request m2 u2 p2 d2]).map SentRequest.headers
      = [[("Authorization", "Bearer " ++ a.token)],
         [("Authorization", "Bearer " ++ t2)]] := by
  simp [Api.runOps, Api.sent, Api.set_token]

/-- Counterexample to claim C9: the `APIResponseError` raised for a 400
response carries `resp.request_info`, whose headers are the headers as
sent — including the `Authorization: Bearer <token>` header — so the error
payload does expose the bearer token rather than excluding it. -/
theorem C9_counterexample :
    Api.request { token := "secret" } "get" "https://api/x"
        (none : Option Nat) (none : Option Nat) srv400
      = Except.error (ReqError.apiResponseError
          { method := "get", url := "https://api/x",
            headers := [("Authorization", "Bearer secret")] }
          400 "Bad Request" none)
    ∧ ("Authorization", "Bearer secret")
      ∈ [("Authorization", "Bearer secret")] := by
  exact ⟨rfl, by simp⟩

/-- Claim C9 as amended: every `APIResponseError` produced by `Api.request`
carries the request context with the sent method, the sent url, and the
headers as sent — which include the Authorization header holding the bearer
token (the token is not excluded from the error payload). -/
theorem C9_amended {P J : Type} (a : Api) (m u : String) (p : Option P)
    (d : Option J) (server : SentRequest P J → ServerResponse J)
    (ri : RequestInfo) (st : Nat) (msg : String) (dt : Option J)
    (h : Api.request a m u p d server
      = Except.error (ReqError.apiResponseError ri st msg dt)) :
    ri.method = m ∧ ri.url = u ∧
      ("Authorization", "Bearer " ++ a.token) ∈ ri.headers := by
  by_cases h200 : (server (Api.sent a m u p d)).status = 200
  · simp only [Api.request] at h
    rw [if_pos h200] at h
    rcases hjb : (server (Api.sent a m u p d)).jsonBody with _ | j <;>
      rw [hjb] at h <;> simp at h
  · by_cases hrej : (server (Api.sent a m u p d)).status = 400 ∨
        (server (Api.sent a m u p d)).status = 422 ∨
        (server (Api.sent a m u p d)).status = 429 ∨
        (server (Api.sent a m u p d)).status = 500
    · simp only [Api.request] at h
      rw [if_neg h200, if_pos hrej] at h
      injection h with h1
      injection h1 with hri hst hmsg hdt
      subst hri
      exact ⟨rfl, rfl, by simp [Api.sent]⟩
    · by_cases hge : 400 ≤ (server (Api.sent a m u p d)).status
      · simp only [Api.request] at h
        rw [if_neg h200, if_neg hrej, if_pos hge] at h
        simp at h
      · simp only [Api.request] at h
        rw [if_neg h200, if_neg hrej, if_neg hge] at h
        simp at h

/-- Witness for C9 as amended, on the concrete 400 response with token
`"secret"`. -/
theorem C9_amended_witness :
    (RequestInfo.mk "get" "x"
        [("Authorization", "Bearer " ++ "secret")]).method = "get"
    ∧ (RequestInfo.mk "get" "x"
        [("Authorization", "Bearer " ++ "secret")]).url = "x"
    ∧ ("Authorization", "Bearer " ++ "secret")
      ∈ (RequestInfo.mk "get" "x"
          [("Authorization", "Bearer " ++ "secret")]).headers :=
  C9_amended { token := "secret" } "get" "x" (none : Option Nat)
    (none : Option Nat) srv400
    (RequestInfo.mk "get" "x" [("Authorization", "Bearer " ++ "secret")])
    400 "Bad Request" (none : Option Nat) rfl

end PySmartThings
